import Mathlib

/-!
Shallow embedding of the Azure OpenAI configuration module of the
fireplexity-v2-APIM repository (src/lib/azure-openai-config.ts, final
draft at lines 131-260, and the two GET route handlers in
src/app/api/fireplexity/check-env/route.ts), together with proofs of
the spec's testable properties.

The process environment is modelled as a record of optional strings,
one field per environment variable the module reads.  JavaScript
truthiness on `process.env.X` (undefined or the empty string are both
falsy) is modelled by `truthy`, and `x || default` by `jsOr`.
-/

/-- Process environment restricted to the variables the module reads.
`none` models an unset variable; `some s` a variable set to `s`
(possibly the empty string). -/
structure Env where
  AZURE_OPENAI_ENDPOINT : Option String
  AZURE_OPENAI_API_KEY : Option String
  AZURE_OPENAI_API_VERSION : Option String
  AZURE_OPENAI_DEPLOYMENT_NAME : Option String
  AZURE_APIM_ENDPOINT : Option String
  AZURE_APIM_SUBSCRIPTION_KEY : Option String
  FIRECRAWL_API_KEY : Option String

/-- JavaScript truthiness of an optional environment string:
`undefined` and `""` are falsy, every other string is truthy. -/
def truthy : Option String → Bool
  | none => false
  | some s => !(s == "")

/-- JavaScript `v || d` on an optional environment string: the set,
non-empty value if there is one, otherwise the default. -/
def jsOr (v : Option String) (d : String) : String :=
  match v with
  | none => d
  | some s => if s == "" then d else s

/-- The record returned by `getAzureOpenAIConfig`
(interface `AzureOpenAIConfig` in the source). -/
structure AzureOpenAIConfig where
  endpoint : String
  apiKey : String
  apiVersion : String
  deploymentName : String
  apimEndpoint : Option String
  apimSubscriptionKey : Option String
deriving Repr, DecidableEq

/-- Error message thrown when the two mandatory variables are missing
(source line 32). -/
def configMissingMsg : String :=
  "Azure OpenAI configuration missing. Please set AZURE_OPENAI_ENDPOINT and AZURE_OPENAI_API_KEY environment variables."

/-- Validator message for an endpoint that is neither a direct Azure
OpenAI endpoint nor backed by an APIM endpoint. -/
def endpointOrApimMsg : String :=
  "Either AZURE_OPENAI_ENDPOINT must be a valid Azure OpenAI endpoint or AZURE_APIM_ENDPOINT must be configured"

/-- Validator message for a gateway endpoint without a subscription key. -/
def apimKeyRequiredMsg : String :=
  "AZURE_APIM_SUBSCRIPTION_KEY is required when using APIM endpoint"

/-- Validator message for an empty deployment name. -/
def deploymentRequiredMsg : String :=
  "AZURE_OPENAI_DEPLOYMENT_NAME is required"

/-- Error message thrown by `extractResourceName` on a malformed endpoint. -/
def invalidEndpointMsg : String :=
  "Invalid Azure OpenAI endpoint format. Expected: https://your-resource.openai.azure.com/"

/-- `getAzureOpenAIConfig` (source lines 21-43 and 151-173): reads the
environment, applies the two defaults, throws (modelled as
`Except.error`) when either mandatory variable is falsy, and passes
the two optional APIM variables through verbatim. -/
def getAzureOpenAIConfig (env : Env) : Except String AzureOpenAIConfig :=
  let endpoint := env.AZURE_OPENAI_ENDPOINT
  let apiKey := env.AZURE_OPENAI_API_KEY
  let apiVersion := jsOr env.AZURE_OPENAI_API_VERSION "2024-02-15-preview"
  let deploymentName := jsOr env.AZURE_OPENAI_DEPLOYMENT_NAME "gpt-4o"
  let apimEndpoint := env.AZURE_APIM_ENDPOINT
  let apimSubscriptionKey := env.AZURE_APIM_SUBSCRIPTION_KEY
  if !truthy endpoint || !truthy apiKey then
    .error configMissingMsg
  else
    .ok { endpoint := endpoint.getD "", apiKey := apiKey.getD "",
          apiVersion := apiVersion, deploymentName := deploymentName,
          apimEndpoint := apimEndpoint, apimSubscriptionKey := apimSubscriptionKey }

/-- Scan for an occurrence of `pat` in a character list, at any start
position (JavaScript `String.prototype.includes`, and the unanchored
search of `String.prototype.match`). -/
def occursB (pat : List Char) : List Char → Bool
  | [] => pat.isPrefixOf ([] : List Char)
  | c :: cs => pat.isPrefixOf (c :: cs) || occursB pat cs

/-- JavaScript `s.includes(pat)`. -/
def jsIncludes (s pat : String) : Bool := occursB pat.data s.data

/-- The characters of the literal `https://` of the endpoint regex. -/
def httpsChars : List Char := "https://".data

/-- The characters of the literal `.openai.azure.com` of the endpoint
regex. -/
def domainChars : List Char := ".openai.azure.com".data

/-- One attempted match of the regex `https:\/\/([^.]+)\.openai\.azure\.com`
at a fixed start position.  The greedy `[^.]+` group can only end at the
first dot after the scheme (its characters exclude dots and the character
after it must be the literal dot), so the match at this position succeeds
exactly when the position starts with `https://`, at least one non-dot
character follows, and the first dot after the scheme starts the literal
`.openai.azure.com`; the captured group is then the span of non-dot
characters after the scheme. -/
def matchAt (cs : List Char) : Option String :=
  if httpsChars.isPrefixOf cs then
    let p := (cs.drop 8).takeWhile (fun c => !(c == '.'))
    let q := (cs.drop 8).dropWhile (fun c => !(c == '.'))
    if p.isEmpty then none
    else if domainChars.isPrefixOf q then some ⟨p⟩
    else none
  else none

/-- Leftmost-position regex search (JavaScript `endpoint.match(...)`):
try each start position from the left and return the first capture. -/
def findMatch : List Char → Option String
  | [] => none
  | c :: cs =>
    match matchAt (c :: cs) with
    | some r => some r
    | none => findMatch cs

/-- `extractResourceName` (source lines 79-85 and 209-215): the capture
group of the first regex match, or a thrown `ConfigurationError`
(modelled as `Except.error`) when the regex does not match. -/
def extractResourceName (endpoint : String) : Except String String :=
  match findMatch endpoint.data with
  | some r => .ok r
  | none => .error invalidEndpointMsg

/-- The result record of `validateAzureOpenAIConfig`. -/
structure ValidationResult where
  isValid : Bool
  errors : List String
deriving Repr, DecidableEq

/-- The error list accumulated by `validateAzureOpenAIConfig` (source
lines 101-127 and 231-257): the caught resolver message alone when
resolution throws, otherwise the three accumulated checks in source
order. -/
def validationErrors (env : Env) : List String :=
  match getAzureOpenAIConfig env with
  | .error msg => [msg]
  | .ok config =>
    (if !(jsIncludes config.endpoint "openai.azure.com") && !(truthy config.apimEndpoint)
     then [endpointOrApimMsg] else []) ++
    (if truthy config.apimEndpoint && !(truthy config.apimSubscriptionKey)
     then [apimKeyRequiredMsg] else []) ++
    (if config.deploymentName == "" then [deploymentRequiredMsg] else [])

/-- `validateAzureOpenAIConfig`: never throws; returns the accumulated
error list and `isValid` exactly when that list is empty. -/
def validateAzureOpenAIConfig (env : Env) : ValidationResult :=
  { isValid := (validationErrors env).isEmpty, errors := validationErrors env }

/-- The client handle produced by `createAzureOpenAIClient`: the
arguments the source passes to the SDK constructor `createAzure`
(source lines 176-207, the final draft).  `useDeploymentBasedUrls`
is the flag the source sets to force the legacy deployment-path URL
shape `/openai/deployments/{deployment}/...`. -/
structure ClientHandle where
  resourceName : Option String
  apiKey : String
  apiVersion : String
  baseURL : Option String
  useDeploymentBasedUrls : Bool
  headers : List (String × String)
deriving Repr, DecidableEq

/-- JavaScript `s.replace(/\/$/, '')`: strip one trailing slash. -/
def stripTrailingSlash (s : String) : String :=
  if s.endsWith "/" then s.dropRight 1 else s

/-- `createAzureOpenAIClient` (source lines 176-207): resolve the
configuration (propagating its failure), then select gateway mode when
both APIM fields are truthy — base address is the APIM endpoint with a
trailing slash stripped, the subscription key travels in the
`Ocp-Apim-Subscription-Key` header, and `useDeploymentBasedUrls` is set —
and direct mode otherwise, extracting the resource name from the
endpoint (propagating its failure). -/
def createAzureOpenAIClient (env : Env) : Except String ClientHandle :=
  match getAzureOpenAIConfig env with
  | .error e => .error e
  | .ok config =>
    if truthy config.apimEndpoint && truthy config.apimSubscriptionKey then
      .ok { resourceName := none, apiKey := config.apiKey,
            apiVersion := config.apiVersion,
            baseURL := some (stripTrailingSlash (config.apimEndpoint.getD "")),
            useDeploymentBasedUrls := true,
            headers := [("Ocp-Apim-Subscription-Key", config.apimSubscriptionKey.getD "")] }
    else
      match extractResourceName config.endpoint with
      | .error e => .error e
      | .ok rn =>
        .ok { resourceName := some rn, apiKey := config.apiKey,
              apiVersion := config.apiVersion, baseURL := none,
              useDeploymentBasedUrls := false, headers := [] }

/-- `getAzureOpenAIModel` (source lines 217-224): the deployment name of
the resolved configuration, for both gateway and direct mode. -/
def getAzureOpenAIModel (env : Env) : Except String String :=
  match getAzureOpenAIConfig env with
  | .error e => .error e
  | .ok config => .ok config.deploymentName

/-- Response body of the `check-env` GET handler (Endpoint A). -/
structure CheckEnvBody where
  hasFirecrawlKey : Bool
  hasAzureOpenAI : Bool
  azureOpenAIErrors : List String
deriving Repr, DecidableEq

/-- Endpoint A, the GET handler of `check-env` (route source lines 4-12):
always HTTP 200 with the search-key presence flag and the validator's
output. -/
def GET_checkEnv (env : Env) : Nat × CheckEnvBody :=
  let azureValidation := validateAzureOpenAIConfig env
  (200, { hasFirecrawlKey := truthy env.FIRECRAWL_API_KEY,
          hasAzureOpenAI := azureValidation.isValid,
          azureOpenAIErrors := azureValidation.errors })

/-- Response body of the `check-azure-env` GET handler (Endpoint B):
either the valid-configuration message or the error record. -/
inductive CheckAzureEnvBody where
  | valid (message : String) (configured : Bool)
  | invalid (error : String) (details : List String) (configured : Bool)
deriving Repr, DecidableEq

/-- Endpoint B, the GET handler of `check-azure-env` (route source lines
15-45): HTTP 500 with the validator's errors when invalid, HTTP 200
otherwise.  The handler is a total function: the validator never throws,
so the source's catch branch is unreachable and the handler never
propagates an exception. -/
def GET_checkAzureEnv (env : Env) : Nat × CheckAzureEnvBody :=
  let validation := validateAzureOpenAIConfig env
  if !validation.isValid then
    (500, .invalid "Azure OpenAI configuration is invalid" validation.errors false)
  else
    (200, .valid "Azure OpenAI configuration is valid" true)

/-! Helper lemmas shared by several claims. -/

/-- Resolution succeeds whenever the two mandatory variables are truthy,
and returns exactly the record the source builds. -/
theorem getConfig_ok_of_truthy (env : Env)
    (hE : truthy env.AZURE_OPENAI_ENDPOINT = true)
    (hK : truthy env.AZURE_OPENAI_API_KEY = true) :
    getAzureOpenAIConfig env = .ok
      { endpoint := env.AZURE_OPENAI_ENDPOINT.getD "",
        apiKey := env.AZURE_OPENAI_API_KEY.getD "",
        apiVersion := jsOr env.AZURE_OPENAI_API_VERSION "2024-02-15-preview",
        deploymentName := jsOr env.AZURE_OPENAI_DEPLOYMENT_NAME "gpt-4o",
        apimEndpoint := env.AZURE_APIM_ENDPOINT,
        apimSubscriptionKey := env.AZURE_APIM_SUBSCRIPTION_KEY } := by
  simp [getAzureOpenAIConfig, hE, hK]

/-- A JavaScript default expression never evaluates to the empty string
when the default itself is non-empty. -/
theorem jsOr_empty_beq (v : Option String) (d : String) (hd : (d == "") = false) :
    (jsOr v d == "") = false := by
  match v with
  | none => simpa [jsOr] using hd
  | some s =>
    by_cases hs : (s == "") = true
    · simpa [jsOr, hs] using hd
    · simp only [Bool.not_eq_true] at hs
      simpa [jsOr, hs] using hs

/-- Resolution fails with the fixed message when either mandatory
variable is falsy. -/
theorem getConfig_error_of_falsy (env : Env)
    (h : truthy env.AZURE_OPENAI_ENDPOINT = false ∨ truthy env.AZURE_OPENAI_API_KEY = false) :
    getAzureOpenAIConfig env = .error configMissingMsg := by
  rcases h with h | h <;> simp [getAzureOpenAIConfig, h]

/-- C1: when the direct endpoint or the direct API key is absent from
the environment, the resolver fails with the fixed configuration-missing
message, while the validator does not throw and instead reports
`isValid := false` with that same message in its error list. -/
theorem resolver_and_validator_on_missing_required (env : Env)
    (h : env.AZURE_OPENAI_ENDPOINT = none ∨ env.AZURE_OPENAI_API_KEY = none) :
    getAzureOpenAIConfig env = .error configMissingMsg ∧
    (validateAzureOpenAIConfig env).isValid = false ∧
    configMissingMsg ∈ (validateAzureOpenAIConfig env).errors := by
  have hres : getAzureOpenAIConfig env = .error configMissingMsg := by
    refine getConfig_error_of_falsy env ?_
    rcases h with h | h
    · exact Or.inl (by simp [h, truthy])
    · exact Or.inr (by simp [h, truthy])
  have herr : validationErrors env = [configMissingMsg] := by
    simp [validationErrors, hres]
  exact ⟨hres, by simp [validateAzureOpenAIConfig, herr], by simp [validateAzureOpenAIConfig, herr]⟩

/-- Witness for C1 at the empty environment. -/
theorem resolver_and_validator_on_missing_required_witness :
    getAzureOpenAIConfig ⟨none, none, none, none, none, none, none⟩ = .error configMissingMsg ∧
    (validateAzureOpenAIConfig ⟨none, none, none, none, none, none, none⟩).isValid = false ∧
    configMissingMsg ∈ (validateAzureOpenAIConfig ⟨none, none, none, none, none, none, none⟩).errors :=
  resolver_and_validator_on_missing_required _ (Or.inl rfl)

/-- C2: with only the APIM endpoint set (no subscription key and no
direct variables), the validator reports only the resolver's
configuration-missing message; the gateway-specific subscription-key
error is swallowed behind the earlier resolver failure. -/
theorem gateway_error_swallowed (env : Env) (g : String)
    (hG : env.AZURE_APIM_ENDPOINT = some g)
    (hS : env.AZURE_APIM_SUBSCRIPTION_KEY = none)
    (hE : env.AZURE_OPENAI_ENDPOINT = none)
    (hK : env.AZURE_OPENAI_API_KEY = none) :
    (validateAzureOpenAIConfig env).isValid = false ∧
    configMissingMsg ∈ (validateAzureOpenAIConfig env).errors ∧
    ((validateAzureOpenAIConfig env).errors.contains apimKeyRequiredMsg) = false := by
  have hres : getAzureOpenAIConfig env = .error configMissingMsg :=
    getConfig_error_of_falsy env (Or.inl (by simp [hE, truthy]))
  have herr : validationErrors env = [configMissingMsg] := by
    simp [validationErrors, hres]
  refine ⟨by simp [validateAzureOpenAIConfig, herr], by simp [validateAzureOpenAIConfig, herr], ?_⟩
  simp only [validateAzureOpenAIConfig, herr]
  decide

/-- Witness for C2 at a concrete environment with only the APIM endpoint. -/
theorem gateway_error_swallowed_witness :
    (validateAzureOpenAIConfig ⟨none, none, none, none, some "https://gw.example/", none, none⟩).isValid = false ∧
    configMissingMsg ∈ (validateAzureOpenAIConfig ⟨none, none, none, none, some "https://gw.example/", none, none⟩).errors ∧
    ((validateAzureOpenAIConfig ⟨none, none, none, none, some "https://gw.example/", none, none⟩).errors.contains apimKeyRequiredMsg) = false :=
  gateway_error_swallowed _ "https://gw.example/" rfl rfl rfl rfl

/-- C5: the validator is a total function (it never throws), and its
`isValid` flag is true exactly when its error list is empty. -/
theorem validator_isValid_iff_no_errors (env : Env) :
    (validateAzureOpenAIConfig env).isValid = true ↔
    (validateAzureOpenAIConfig env).errors = [] := by
  simp [validateAzureOpenAIConfig, List.isEmpty_iff]

/-- C7: Endpoint B returns 200 with the valid-configuration body exactly
when the validator reports valid, and otherwise 500 with the error body
carrying the validator's error list; being a total function it never
propagates an exception. -/
theorem check_azure_env_matches_validator (env : Env) :
    GET_checkAzureEnv env =
      (if (validateAzureOpenAIConfig env).isValid then
        (200, CheckAzureEnvBody.valid "Azure OpenAI configuration is valid" true)
      else
        (500, CheckAzureEnvBody.invalid "Azure OpenAI configuration is invalid"
          (validateAzureOpenAIConfig env).errors false)) ∧
    ((GET_checkAzureEnv env).1 = 200 ↔ (validateAzureOpenAIConfig env).isValid = true) := by
  cases h : (validateAzureOpenAIConfig env).isValid <;> simp [GET_checkAzureEnv, h]

/-- C8: Endpoint A always returns 200, reports the presence (JavaScript
truthiness) of the Firecrawl key, and copies the validator's flag and
error list verbatim. -/
theorem check_env_matches_validator (env : Env) :
    (GET_checkEnv env).1 = 200 ∧
    ((GET_checkEnv env).2.hasFirecrawlKey = true ↔
      ∃ s, env.FIRECRAWL_API_KEY = some s ∧ s ≠ "") ∧
    (GET_checkEnv env).2.hasAzureOpenAI = (validateAzureOpenAIConfig env).isValid ∧
    (GET_checkEnv env).2.azureOpenAIErrors = (validateAzureOpenAIConfig env).errors := by
  refine ⟨rfl, ?_, rfl, rfl⟩
  cases hf : env.FIRECRAWL_API_KEY <;> simp [GET_checkEnv, truthy, hf]

/-- C3 counterexample: an environment in which exactly one of the
gateway pair is set — the subscription key, not the endpoint — yet the
validator reports no error at all, in particular no missing
gateway-subscription-key error. -/
theorem validator_silent_on_lone_subscription_key :
    (⟨some "https://foo.openai.azure.com/", some "k", none, none, none, some "s", none⟩ : Env).AZURE_APIM_ENDPOINT = none ∧
    (⟨some "https://foo.openai.azure.com/", some "k", none, none, none, some "s", none⟩ : Env).AZURE_APIM_SUBSCRIPTION_KEY = some "s" ∧
    validateAzureOpenAIConfig ⟨some "https://foo.openai.azure.com/", some "k", none, none, none, some "s", none⟩ = ⟨true, []⟩ ∧
    ((validateAzureOpenAIConfig ⟨some "https://foo.openai.azure.com/", some "k", none, none, none, some "s", none⟩).errors.contains apimKeyRequiredMsg) = false := by
  refine ⟨rfl, rfl, ?_, ?_⟩ <;> decide

/-- C3 as amended: the missing-gateway-subscription-key error is raised
exactly in the direction the code checks — when the gateway endpoint is
truthy while the subscription key is not — and only when resolution of
the two mandatory direct variables succeeds. -/
theorem validator_flags_missing_subscription_key (env : Env)
    (hG : truthy env.AZURE_APIM_ENDPOINT = true)
    (hS : truthy env.AZURE_APIM_SUBSCRIPTION_KEY = false)
    (hE : truthy env.AZURE_OPENAI_ENDPOINT = true)
    (hK : truthy env.AZURE_OPENAI_API_KEY = true) :
    apimKeyRequiredMsg ∈ (validateAzureOpenAIConfig env).errors ∧
    (validateAzureOpenAIConfig env).isValid = false := by
  have hok := getConfig_ok_of_truthy env hE hK
  have herr : validationErrors env =
      (if !(jsIncludes (env.AZURE_OPENAI_ENDPOINT.getD "") "openai.azure.com") && !(truthy env.AZURE_APIM_ENDPOINT)
       then [endpointOrApimMsg] else []) ++
      [apimKeyRequiredMsg] ++
      (if (jsOr env.AZURE_OPENAI_DEPLOYMENT_NAME "gpt-4o" == "") then [deploymentRequiredMsg] else []) := by
    simp [validationErrors, hok, hG, hS]
  have hmem : apimKeyRequiredMsg ∈ validationErrors env := by
    rw [herr]; simp
  refine ⟨hmem, ?_⟩
  have hne : validationErrors env ≠ [] := List.ne_nil_of_mem hmem
  simp [validateAzureOpenAIConfig, List.isEmpty_iff, hne]

/-- Witness for the amended C3 at a concrete environment with a gateway
endpoint but no subscription key. -/
theorem validator_flags_missing_subscription_key_witness :
    apimKeyRequiredMsg ∈ (validateAzureOpenAIConfig ⟨some "https://foo.openai.azure.com/", some "k", none, none, some "https://gw.example/", none, none⟩).errors ∧
    (validateAzureOpenAIConfig ⟨some "https://foo.openai.azure.com/", some "k", none, none, some "https://gw.example/", none, none⟩).isValid = false :=
  validator_flags_missing_subscription_key _ (by decide) (by decide) (by decide) (by decide)

/-- C9: with both mandatory variables truthy, unset API version and
deployment name resolve to the documented defaults, and set, non-empty
values pass through unchanged. -/
theorem resolver_defaults (env : Env) (e k : String)
    (hE : env.AZURE_OPENAI_ENDPOINT = some e) (he : (e == "") = false)
    (hK : env.AZURE_OPENAI_API_KEY = some k) (hk : (k == "") = false) :
    (env.AZURE_OPENAI_API_VERSION = none → env.AZURE_OPENAI_DEPLOYMENT_NAME = none →
      getAzureOpenAIConfig env = .ok ⟨e, k, "2024-02-15-preview", "gpt-4o",
        env.AZURE_APIM_ENDPOINT, env.AZURE_APIM_SUBSCRIPTION_KEY⟩) ∧
    (∀ v d : String, env.AZURE_OPENAI_API_VERSION = some v → (v == "") = false →
      env.AZURE_OPENAI_DEPLOYMENT_NAME = some d → (d == "") = false →
      getAzureOpenAIConfig env = .ok ⟨e, k, v, d,
        env.AZURE_APIM_ENDPOINT, env.AZURE_APIM_SUBSCRIPTION_KEY⟩) := by
  have hok := getConfig_ok_of_truthy env (by simp [truthy, hE, he]) (by simp [truthy, hK, hk])
  constructor
  · intro hv hd
    rw [hok]
    simp [hE, hK, hv, hd, jsOr]
  · intro v d hv hveq hd hdeq
    rw [hok]
    simp [hE, hK, hv, hd, jsOr, hveq, hdeq]

/-- Witness for C9: the defaults at one concrete environment, the
pass-through at another. -/
theorem resolver_defaults_witness :
    getAzureOpenAIConfig ⟨some "https://foo.openai.azure.com/", some "k", none, none, none, none, none⟩ =
      .ok ⟨"https://foo.openai.azure.com/", "k", "2024-02-15-preview", "gpt-4o", none, none⟩ ∧
    getAzureOpenAIConfig ⟨some "https://foo.openai.azure.com/", some "k", some "2024-06-01", some "gpt-4o-mini", none, none, none⟩ =
      .ok ⟨"https://foo.openai.azure.com/", "k", "2024-06-01", "gpt-4o-mini", none, none⟩ :=
  ⟨(resolver_defaults _ _ _ rfl (by decide) rfl (by decide)).1 rfl rfl,
   (resolver_defaults _ _ _ rfl (by decide) rfl (by decide)).2 _ _ rfl (by decide) rfl (by decide)⟩

/-- C10: an environment variable set to the empty string behaves like an
absent one — an empty mandatory variable makes resolution fail with the
configuration-missing message, an empty optional variable falls back to
its default — and every successfully resolved configuration carries a
non-empty API version and deployment name. -/
theorem resolver_empty_string_like_absent (env : Env) :
    ((env.AZURE_OPENAI_ENDPOINT = some "" ∨ env.AZURE_OPENAI_API_KEY = some "") →
      getAzureOpenAIConfig env = .error configMissingMsg) ∧
    (∀ c : AzureOpenAIConfig, getAzureOpenAIConfig env = .ok c →
      (env.AZURE_OPENAI_API_VERSION = some "" → c.apiVersion = "2024-02-15-preview") ∧
      (env.AZURE_OPENAI_DEPLOYMENT_NAME = some "" → c.deploymentName = "gpt-4o") ∧
      (c.apiVersion == "") = false ∧ (c.deploymentName == "") = false) := by
  constructor
  · intro h
    refine getConfig_error_of_falsy env ?_
    rcases h with h | h
    · exact Or.inl (by simp [h, truthy])
    · exact Or.inr (by simp [h, truthy])
  · intro c hc
    by_cases hE : truthy env.AZURE_OPENAI_ENDPOINT = true
    · by_cases hK : truthy env.AZURE_OPENAI_API_KEY = true
      · have hok := getConfig_ok_of_truthy env hE hK
        rw [hok] at hc
        have hcfg := (Except.ok.injEq _ _).mp hc
        refine ⟨?_, ?_, ?_, ?_⟩
        · intro hv
          rw [← hcfg]
          simp [hv, jsOr]
        · intro hd
          rw [← hcfg]
          simp [hd, jsOr]
        · rw [← hcfg]
          exact jsOr_empty_beq _ _ (by decide)
        · rw [← hcfg]
          exact jsOr_empty_beq _ _ (by decide)
      · rw [getConfig_error_of_falsy env (Or.inr (by simpa using hK))] at hc
        exact absurd hc (by simp)
    · rw [getConfig_error_of_falsy env (Or.inl (by simpa using hE))] at hc
      exact absurd hc (by simp)

/-- Witness for C10: an empty mandatory endpoint fails resolution; empty
optional variables resolve to the defaults, which are non-empty. -/
theorem resolver_empty_string_like_absent_witness :
    getAzureOpenAIConfig ⟨some "", some "k", none, none, none, none, none⟩ = .error configMissingMsg ∧
    (⟨"e", "k", "2024-02-15-preview", "gpt-4o", none, none⟩ : AzureOpenAIConfig).apiVersion = "2024-02-15-preview" ∧
    (⟨"e", "k", "2024-02-15-preview", "gpt-4o", none, none⟩ : AzureOpenAIConfig).deploymentName = "gpt-4o" ∧
    ((⟨"e", "k", "2024-02-15-preview", "gpt-4o", none, none⟩ : AzureOpenAIConfig).apiVersion == "") = false ∧
    ((⟨"e", "k", "2024-02-15-preview", "gpt-4o", none, none⟩ : AzureOpenAIConfig).deploymentName == "") = false :=
  have h2 := (resolver_empty_string_like_absent ⟨some "e", some "k", some "", some "", none, none, none⟩).2
    ⟨"e", "k", "2024-02-15-preview", "gpt-4o", none, none⟩ rfl
  ⟨(resolver_empty_string_like_absent ⟨some "", some "k", none, none, none, none, none⟩).1 (Or.inl rfl),
   h2.1 rfl, h2.2.1 rfl, h2.2.2.1, h2.2.2.2⟩

/-- C6: when both APIM variables are truthy and resolution succeeds, the
client factory selects gateway mode — the base address is the gateway
endpoint with any trailing slash stripped, the subscription key travels
in the `Ocp-Apim-Subscription-Key` header, and the
`useDeploymentBasedUrls` flag forcing the legacy
`/openai/deployments/{deployment}/...` URL shape is set — and the model
identifier is the resolved configuration's deployment name. -/
theorem gateway_mode_selection (env : Env) (e k g sk : String)
    (hE : env.AZURE_OPENAI_ENDPOINT = some e) (he : (e == "") = false)
    (hK : env.AZURE_OPENAI_API_KEY = some k) (hk : (k == "") = false)
    (hG : env.AZURE_APIM_ENDPOINT = some g) (hg : (g == "") = false)
    (hS : env.AZURE_APIM_SUBSCRIPTION_KEY = some sk) (hs : (sk == "") = false) :
    createAzureOpenAIClient env = .ok
      { resourceName := none, apiKey := k,
        apiVersion := jsOr env.AZURE_OPENAI_API_VERSION "2024-02-15-preview",
        baseURL := some (stripTrailingSlash g),
        useDeploymentBasedUrls := true,
        headers := [("Ocp-Apim-Subscription-Key", sk)] } ∧
    getAzureOpenAIModel env =
      Except.map AzureOpenAIConfig.deploymentName (getAzureOpenAIConfig env) ∧
    getAzureOpenAIModel env = .ok (jsOr env.AZURE_OPENAI_DEPLOYMENT_NAME "gpt-4o") := by
  have hok := getConfig_ok_of_truthy env (by simp [truthy, hE, he]) (by simp [truthy, hK, hk])
  refine ⟨?_, ?_, ?_⟩
  · simp [createAzureOpenAIClient, hok, hG, hS, truthy, hg, hs, hK]
  · rw [getAzureOpenAIModel, hok]
    rfl
  · rw [getAzureOpenAIModel, hok]

/-- Witness for C6 at a concrete fully configured gateway environment. -/
theorem gateway_mode_selection_witness :
    createAzureOpenAIClient ⟨some "https://foo.openai.azure.com/", some "k", none, none, some "https://gw.example/", some "subkey", none⟩ = .ok
      { resourceName := none, apiKey := "k",
        apiVersion := jsOr (none : Option String) "2024-02-15-preview",
        baseURL := some (stripTrailingSlash "https://gw.example/"),
        useDeploymentBasedUrls := true,
        headers := [("Ocp-Apim-Subscription-Key", "subkey")] } ∧
    getAzureOpenAIModel ⟨some "https://foo.openai.azure.com/", some "k", none, none, some "https://gw.example/", some "subkey", none⟩ =
      Except.map AzureOpenAIConfig.deploymentName (getAzureOpenAIConfig ⟨some "https://foo.openai.azure.com/", some "k", none, none, some "https://gw.example/", some "subkey", none⟩) ∧
    getAzureOpenAIModel ⟨some "https://foo.openai.azure.com/", some "k", none, none, some "https://gw.example/", some "subkey", none⟩ =
      .ok (jsOr (none : Option String) "gpt-4o") :=
  gateway_mode_selection _ _ _ _ _ rfl (by decide) rfl (by decide) rfl (by decide) rfl (by decide)

/-! Lemmas about the regex search supporting the resource-name claim. -/

/-- A list is a prefix of itself followed by anything. -/
theorem isPrefixOf_append_self (l₁ l₂ : List Char) : l₁.isPrefixOf (l₁ ++ l₂) = true := by
  induction l₁ with
  | nil => cases l₂ <;> rfl
  | cons a t ih => simpa [List.isPrefixOf] using ih

/-- Dropping the length of the left part of an append yields the right part. -/
theorem drop_len_append (l₁ l₂ : List Char) : (l₁ ++ l₂).drop l₁.length = l₂ := by
  induction l₁ with
  | nil => rfl
  | cons a t ih => simpa using ih

/-- The non-dot span of a dot-free list followed by a dot is the list itself. -/
theorem takeWhile_no_dot (l m : List Char) (h : ∀ c ∈ l, c ≠ '.') :
    (l ++ '.' :: m).takeWhile (fun c => !(c == '.')) = l := by
  induction l with
  | nil => simp
  | cons a t ih =>
    have ha : (a == '.') = false := by
      have := h a (by simp)
      simpa using this
    simp only [List.cons_append, List.takeWhile_cons, ha]
    simpa using ih (fun c hc => h c (by simp [hc]))

/-- Dropping the non-dot span of a dot-free list followed by a dot
leaves the dot and what follows it. -/
theorem dropWhile_no_dot (l m : List Char) (h : ∀ c ∈ l, c ≠ '.') :
    (l ++ '.' :: m).dropWhile (fun c => !(c == '.')) = '.' :: m := by
  induction l with
  | nil => simp
  | cons a t ih =>
    have ha : (a == '.') = false := by
      have := h a (by simp)
      simpa using this
    simp only [List.cons_append, List.dropWhile_cons, ha]
    simpa using ih (fun c hc => h c (by simp [hc]))

/-- On a well-formed endpoint tail the positional match captures exactly
the dot-free resource name. -/
theorem matchAt_wellformed (l : List Char) (hne : l ≠ []) (h : ∀ c ∈ l, c ≠ '.') :
    matchAt (httpsChars ++ (l ++ '.' :: "openai.azure.com/".data)) = some ⟨l⟩ := by
  have h8 : (8 : Nat) = httpsChars.length := rfl
  have hdrop : (httpsChars ++ (l ++ '.' :: "openai.azure.com/".data)).drop 8 =
      l ++ '.' :: "openai.azure.com/".data := by
    rw [h8, drop_len_append]
  simp only [matchAt, isPrefixOf_append_self, if_true, hdrop,
    takeWhile_no_dot l _ h, dropWhile_no_dot l _ h]
  have hpe : l.isEmpty = false := by
    cases l with
    | nil => exact absurd rfl hne
    | cons a t => rfl
  have hdom : domainChars.isPrefixOf ('.' :: "openai.azure.com/".data) = true := by decide
  simp [hpe, hdom]

/-- The search returns the positional match of the head position when
that position matches. -/
theorem findMatch_head (cs : List Char) (r : String) (h : matchAt cs = some r) :
    findMatch cs = some r := by
  cases cs with
  | nil =>
    have hnil : matchAt ([] : List Char) = none := by decide
    rw [hnil] at h
    exact Option.noConfusion h
  | cons c t => simp [findMatch, h]

/-- String append acts as list append on the character data. -/
theorem data_append_char (a b : String) : (a ++ b).data = a.data ++ b.data := by
  cases a
  cases b
  rfl

/-- A successful positional match certifies the scheme literal at the
position and the domain literal after the captured span. -/
theorem matchAt_some_parts (cs : List Char) (r : String) (h : matchAt cs = some r) :
    httpsChars.isPrefixOf cs = true ∧
    domainChars.isPrefixOf ((cs.drop 8).dropWhile (fun c => !(c == '.'))) = true := by
  simp only [matchAt] at h
  split at h
  next hp =>
    split at h
    next hq => exact absurd h (by simp)
    next hq =>
      split at h
      next hd => exact ⟨hp, hd⟩
      next hd => exact absurd h (by simp)
  next hp => exact absurd h (by simp)

/-- Occurrence follows from a match at the start. -/
theorem occursB_of_isPrefixOf (pat l : List Char) (h : pat.isPrefixOf l = true) :
    occursB pat l = true := by
  cases l with
  | nil => simpa [occursB] using h
  | cons c t => simp [occursB, h]

/-- Occurrence is preserved by prepending characters. -/
theorem occursB_append_right (pat t l : List Char) (h : occursB pat l = true) :
    occursB pat (t ++ l) = true := by
  induction t with
  | nil => simpa using h
  | cons c ts ih => simp [occursB, ih]

/-- A successful search certifies that both regex literals occur in the
scanned characters. -/
theorem findMatch_some_occurs (cs : List Char) (r : String) (h : findMatch cs = some r) :
    occursB httpsChars cs = true ∧ occursB domainChars cs = true := by
  induction cs with
  | nil =>
    have hnil : findMatch ([] : List Char) = none := rfl
    rw [hnil] at h
    exact Option.noConfusion h
  | cons c t ih =>
    simp only [findMatch] at h
    cases hm : matchAt (c :: t) with
    | some r' =>
      have parts := matchAt_some_parts _ _ hm
      refine ⟨occursB_of_isPrefixOf _ _ parts.1, ?_⟩
      have e1 : (c :: t).take 8 ++ (c :: t).drop 8 = c :: t := List.take_append_drop 8 (c :: t)
      have e2 : ((c :: t).drop 8).takeWhile (fun c => !(c == '.')) ++
          ((c :: t).drop 8).dropWhile (fun c => !(c == '.')) = (c :: t).drop 8 :=
        List.takeWhile_append_dropWhile _ _
      have hocc : occursB domainChars
          ((c :: t).take 8 ++ (((c :: t).drop 8).takeWhile (fun c => !(c == '.')) ++
            ((c :: t).drop 8).dropWhile (fun c => !(c == '.')))) = true :=
        occursB_append_right _ _ _ (occursB_append_right _ _ _
          (occursB_of_isPrefixOf _ _ parts.2))
      rw [e2, e1] at hocc
      exact hocc
    | none =>
      rw [hm] at h
      have ht := ih h
      exact ⟨by simp [occursB, ht.1], by simp [occursB, ht.2]⟩

/-- C4: on a well-formed endpoint of the shape
`https://{name}.openai.azure.com/` with a non-empty, dot-free name, the
extraction returns the name exactly; on an endpoint without the
`https://` scheme marker, or without the `.openai.azure.com` domain
suffix, it fails with the fixed invalid-endpoint message. -/
theorem extractResourceName_spec :
    (∀ name : String, name ≠ "" → (∀ c ∈ name.data, c ≠ '.') →
      extractResourceName ("https://" ++ name ++ ".openai.azure.com/") = .ok name) ∧
    (∀ endpoint : String, occursB httpsChars endpoint.data = false →
      extractResourceName endpoint = .error invalidEndpointMsg) ∧
    (∀ endpoint : String, occursB domainChars endpoint.data = false →
      extractResourceName endpoint = .error invalidEndpointMsg) := by
  refine ⟨?_, ?_, ?_⟩
  · intro name hne h
    have hldata : name.data ≠ [] := by
      intro hl
      apply hne
      cases name
      subst hl
      rfl
    have hdata : ("https://" ++ name ++ ".openai.azure.com/").data =
        httpsChars ++ (name.data ++ '.' :: "openai.azure.com/".data) := by
      rw [data_append_char, data_append_char]
      simp [httpsChars, List.append_assoc]
    have hm : findMatch ("https://" ++ name ++ ".openai.azure.com/").data = some name := by
      rw [hdata]
      have := matchAt_wellformed name.data hldata h
      have hmk : (⟨name.data⟩ : String) = name := by cases name; rfl
      rw [hmk] at this
      exact findMatch_head _ _ this
    unfold extractResourceName
    rw [hm]
  · intro endpoint h
    cases hm : findMatch endpoint.data with
    | none => simp [extractResourceName, hm]
    | some r =>
      have := (findMatch_some_occurs _ _ hm).1
      rw [h] at this
      exact absurd this (by simp)
  · intro endpoint h
    cases hm : findMatch endpoint.data with
    | none => simp [extractResourceName, hm]
    | some r =>
      have := (findMatch_some_occurs _ _ hm).2
      rw [h] at this
      exact absurd this (by simp)

/-- Witness for C4: one well-formed endpoint, one without the scheme,
one with the wrong domain suffix. -/
theorem extractResourceName_spec_witness :
    extractResourceName ("https://" ++ "myres" ++ ".openai.azure.com/") = .ok "myres" ∧
    extractResourceName "http://myres.openai.azure.com/" = .error invalidEndpointMsg ∧
    extractResourceName "https://myres.openai.azure.net/" = .error invalidEndpointMsg :=
  ⟨extractResourceName_spec.1 "myres" (by decide) (by decide),
   extractResourceName_spec.2.1 "http://myres.openai.azure.com/" (by decide),
   extractResourceName_spec.2.2 "https://myres.openai.azure.net/" (by decide)⟩
